import Mathlib

/-!
# ProgrammablePulling: `buddha.cpp`

A shallow embedding of `src/ProgrammablePulling/buddha.cpp`: the object state of
`BuddhaDemo`, the draw-command set-up of `loadModels`, the shader stage loader
`loadShaderProgramFromFile`, and the per-frame procedure `renderScene`.

Conventions of the embedding.

* Calls into OpenGL are effects on the driver.  A procedure of the demo returns,
  next to its result, the list of OpenGL calls it issued, in program order.
* `GLuint`, `GLenum` are 32-bit unsigned machine words, held as `Nat`; a conversion
  `(GLuint)x` is a reduction modulo `2 ^ 32`.
* `float` values are elements of a type `F` and `glm::mat4` values elements of a type
  `M`; the single-precision operations (`+`, `*`, unary `-`, `fmodf`, `sin`, `cos`) and
  the operations of the glm library (`mat4(s)`, `rotate`, `translate`, `operator*`)
  are fields of a `Platform F M`.  Statements proved for every platform hold for the
  IEEE-754 one in particular.  `FloatTerm`/`Mat4Term` give the free platform, in which
  a value is the expression that computes it; `binary32Platform` gives IEEE-754
  binary32 arithmetic for `+`, `*`, unary `-` and `fmodf` over a `Library` that supplies
  `sin`, `cos` and glm.
* A file read has three outcomes: the stream does not open, it delivers text, or the
  stream buffer raises an exception that leaves the reading function.
* Literal arguments of OpenGL calls (`0.f`, `1.f`) are exactly representable, and are
  recorded by their rational value.
-/

namespace buddha

/-! ## Machine words and OpenGL constants -/

abbrev GLenum := Nat
abbrev GLuint := Nat

/-- The conversion `(GLuint)x` of an unsigned integer `x`. -/
def toGLuint (n : Nat) : GLuint := n % 2 ^ 32

/-- The conversion of a 32-bit unsigned word to `GLint`/`GLsizei` (two's complement). -/
def toGLint (n : GLuint) : Int :=
  if n % 2 ^ 32 < 2 ^ 31 then ((n % 2 ^ 32 : Nat) : Int) else ((n % 2 ^ 32 : Nat) : Int) - 2 ^ 32

def GL_FALSE : Nat := 0
def GL_TRUE : Nat := 1
def GL_TRIANGLES : GLenum := 0x0004
def GL_UNSIGNED_INT : GLenum := 0x1405
def GL_DEPTH_BUFFER_BIT : Nat := 0x00000100
def GL_COLOR_BUFFER_BIT : Nat := 0x00004000
def GL_CULL_FACE : GLenum := 0x0B44
def GL_DEPTH_TEST : GLenum := 0x0B71
def GL_R32F : GLenum := 0x822E
def GL_TEXTURE0 : GLenum := 0x84C0
def GL_TEXTURE1 : GLenum := 0x84C1
def GL_QUERY_RESULT : GLenum := 0x8866
def GL_READ_ONLY : GLenum := 0x88B8
def GL_TIME_ELAPSED : GLenum := 0x88BF
def GL_STATIC_DRAW : GLenum := 0x88E4
def GL_UNIFORM_BUFFER : GLenum := 0x8A11
def GL_FRAGMENT_SHADER : GLenum := 0x8B30
def GL_VERTEX_SHADER : GLenum := 0x8B31
def GL_LINK_STATUS : GLenum := 0x8B82
def GL_TEXTURE_BUFFER : GLenum := 0x8C2A
def GL_FRAMEBUFFER : GLenum := 0x8D40
def GL_FRAMEBUFFER_SRGB : GLenum := 0x8DB9

/-! ## Data model -/

/-- Modelled from the spec: the enumeration `VertexPullingMode` of `buddha.h`, a header
that is not among the sources.  Its members are the five modes that `loadShaders`
indexes `vertexProg` and `progPipeline` with. -/
inductive VertexPullingMode
  | FIXED_FUNCTION_MODE
  | FETCHER_MODE
  | FETCHER_IMAGE_AOS_MODE
  | FETCHER_IMAGE_SOA_MODE
  | PULLER_MODE
  deriving DecidableEq, Repr

open VertexPullingMode

/-- A `glm::vec3` over the scalar type `F`. -/
structure Vec3 (F : Type) where
  x : F
  y : F
  z : F
  deriving DecidableEq, Repr

/-- `struct Transform`. -/
structure Transform (M : Type) where
  ModelViewMatrix : M
  ProjectionMatrix : M
  MVPMatrix : M
  deriving DecidableEq, Repr

/-- `struct Camera`. -/
structure Camera (F : Type) where
  position : Vec3 F
  rotation : Vec3 F
  deriving DecidableEq, Repr

/-- `struct Vertex`. -/
structure Vertex (F : Type) where
  position : Vec3 F
  normal : Vec3 F
  deriving DecidableEq, Repr

/-- `struct DrawCommand`.  The anonymous union overlays `{indexOffset, indexCount}` and
`{firstVertex, vertexCount}` on the same two words, `word0` and `word1`. -/
structure DrawCommand where
  useIndices : Bool
  prim_type : GLenum
  word0 : GLuint
  word1 : GLuint
  deriving DecidableEq, Repr

namespace DrawCommand

def indexOffset (c : DrawCommand) : GLuint := c.word0
def indexCount (c : DrawCommand) : GLuint := c.word1
def firstVertex (c : DrawCommand) : GLuint := c.word0
def vertexCount (c : DrawCommand) : GLuint := c.word1

/-- The count field of a draw command: `indexCount` for an indexed command,
`vertexCount` for a non-indexed one. -/
def count (c : DrawCommand) : GLuint :=
  if c.useIndices then c.indexCount else c.vertexCount

end DrawCommand

/-- The data members of `class BuddhaDemo`. -/
structure BuddhaDemo (F M : Type) where
  camera : Camera F
  transform : Transform M
  transformUB : GLuint
  fragmentProg : GLuint
  vertexProg : VertexPullingMode → GLuint
  progPipeline : VertexPullingMode → GLuint
  indexBuffer : GLuint
  vertexBuffer : GLuint
  vertexArray : GLuint
  indexTexBuffer : GLuint
  vertexTexBuffer : GLuint
  timeElapsedQuery : GLuint
  drawCmd : VertexPullingMode → DrawCommand
  cameraRotationFactor : F

/-- Assignment `a[k] = v` to an array indexed by the modes. -/
def setAt {α : Type} (a : VertexPullingMode → α) (k : VertexPullingMode) (v : α) :
    VertexPullingMode → α :=
  fun m => if m = k then v else a m

/-! ## `loadModels` -/

/-- Modelled from the spec: the mesh `demo::WaveFrontObj` of `wavefront.h`, a header that
is not among the sources: parallel position and normal arrays and an index list. -/
structure WaveFrontObj (F : Type) where
  Positions : List (Vec3 F)
  Normals : List (Vec3 F)
  Indices : List GLuint

/-- The object names that the driver hands out to `loadModels` through `glGenBuffers`,
`glGenVertexArrays` and `glGenTextures`, in the order of the calls. -/
structure GenNames where
  indexBuffer : GLuint
  vertexBuffer : GLuint
  vertexArray : GLuint
  indexTexBuffer : GLuint
  vertexTexBuffer : GLuint

/-- The effect of `BuddhaDemo::loadModels` on the object, for the mesh `buddhaObj` read
from the model file.  The buffer uploads act on driver memory only; the members written
are the five object names and the draw commands of lines 173-195. -/
def loadModels {F M : Type} (s : BuddhaDemo F M) (names : GenNames) (buddhaObj : WaveFrontObj F) :
    BuddhaDemo F M :=
  let n : GLuint := toGLuint buddhaObj.Indices.length
  let d0 := s.drawCmd
  -- setup draw command for fixed-function vertex pulling
  let d1 := setAt d0 FIXED_FUNCTION_MODE { d0 FIXED_FUNCTION_MODE with useIndices := true }
  let d2 := setAt d1 FIXED_FUNCTION_MODE { d1 FIXED_FUNCTION_MODE with prim_type := GL_TRIANGLES }
  let d3 := setAt d2 FIXED_FUNCTION_MODE { d2 FIXED_FUNCTION_MODE with word0 := 0 }
  let d4 := setAt d3 FIXED_FUNCTION_MODE { d3 FIXED_FUNCTION_MODE with word1 := n }
  -- setup draw command for programmable attribute fetching
  let d5 := setAt d4 FETCHER_MODE { d4 FETCHER_MODE with useIndices := true }
  let d6 := setAt d5 FETCHER_MODE { d5 FETCHER_MODE with prim_type := GL_TRIANGLES }
  let d7 := setAt d6 FETCHER_MODE { d6 FETCHER_MODE with word0 := 0 }
  let d8 := setAt d7 FETCHER_MODE { d7 FETCHER_MODE with word1 := n }
  -- setup draw command for programmable attribute fetching with an image
  let d9 := setAt d8 FETCHER_IMAGE_AOS_MODE { d8 FETCHER_IMAGE_AOS_MODE with useIndices := true }
  let d10 := setAt d9 FETCHER_IMAGE_AOS_MODE
    { d9 FETCHER_IMAGE_AOS_MODE with prim_type := GL_TRIANGLES }
  let d11 := setAt d10 FETCHER_IMAGE_AOS_MODE { d10 FETCHER_IMAGE_AOS_MODE with word0 := 0 }
  let d12 := setAt d11 FETCHER_IMAGE_AOS_MODE { d11 FETCHER_IMAGE_AOS_MODE with word1 := n }
  -- setup draw command for fully programmable vertex pulling
  let d13 := setAt d12 PULLER_MODE { d12 PULLER_MODE with useIndices := false }
  let d14 := setAt d13 PULLER_MODE { d13 PULLER_MODE with prim_type := GL_TRIANGLES }
  let d15 := setAt d14 PULLER_MODE { d14 PULLER_MODE with word0 := 0 }
  let d16 := setAt d15 PULLER_MODE { d15 PULLER_MODE with word1 := n }
  { s with
    indexBuffer := names.indexBuffer
    vertexBuffer := names.vertexBuffer
    vertexArray := names.vertexArray
    drawCmd := d16
    indexTexBuffer := names.indexTexBuffer
    vertexTexBuffer := names.vertexTexBuffer }

/-! ## `loadShaderProgramFromFile` -/

/-- What `std::ifstream file(filename)` followed by the read of lines 218-220 yields.

* `cannotOpen`: the stream fails to open, so `!file` holds at line 212.
* `opened source bad`: the stream opens and the two `std::istreambuf_iterator`s deliver
  `source`; `bad` is the value of `file.bad()` at line 222.  The iterators read from the
  stream buffer and never write the state of the stream, so after a stream that opened
  the standard library yields `bad = false`, also when the read was cut short: then
  `source` is the text read up to that point.
* `readThrows`: the stream opens and the stream buffer raises an exception while it is
  read, which is how libstdc++ reports a failing read (`basic_filebuf::underflow`). -/
inductive FileRead
  | cannotOpen
  | opened (source : String) (bad : Bool)
  | readThrows
  deriving DecidableEq, Repr

/-- The file system and the OpenGL driver, as `loadShaderProgramFromFile` sees them. -/
structure ShaderWorld where
  /-- The outcome of opening and reading the file of a given name. -/
  readFile : String → FileRead
  /-- The name returned by `glCreateShaderProgramv(type, 1, &text)`. -/
  glCreateShaderProgramv : GLenum → String → GLuint
  /-- The value found in `status` after `glGetProgramiv(program, pname, &status)`. -/
  glGetProgramiv : GLuint → GLenum → Int
  /-- The text found in `log` after `glGetProgramInfoLog(program, bufSize, NULL, log)`. -/
  glGetProgramInfoLog : GLuint → Nat → String

/-- An OpenGL call issued by `loadShaderProgramFromFile`. -/
inductive ShaderCall
  | createShaderProgramv (type : GLenum) (count : Nat) (text : String)
  | getProgramiv (program : GLuint) (pname : GLenum)
  | getProgramInfoLog (program : GLuint) (bufSize : Nat)
  deriving DecidableEq, Repr

/-- How a call ends: it returns a value to its caller, or the process terminates
through `exit(status)`, or an exception leaves the function (no handler is in
`buddha.cpp`; uncaught, it ends the process through `std::terminate`). -/
inductive Outcome (α : Type)
  | returned (value : α)
  | exited (status : Int)
  | threw
  deriving DecidableEq, Repr

/-- The result of running `loadShaderProgramFromFile`: how it ended, the OpenGL calls it
issued and the lines it wrote to `std::cerr`. -/
structure ShaderLoad where
  outcome : Outcome GLuint
  calls : List ShaderCall
  cerr : List String
  deriving DecidableEq, Repr

/-- The characters of `source.c_str()` as a C string: those before the first NUL. -/
def c_str (source : String) : String :=
  String.mk (source.toList.takeWhile (fun c => c != Char.ofNat 0))

/-- `BuddhaDemo::loadShaderProgramFromFile(filename, shaderType)`. -/
def loadShaderProgramFromFile (w : ShaderWorld) (filename : String) (shaderType : GLenum) :
    ShaderLoad :=
  match w.readFile filename with
  | FileRead.cannotOpen =>
      { outcome := Outcome.returned 0
        calls := []
        cerr := ["Unable to open file: " ++ filename] }
  | FileRead.opened source bad =>
      if bad then
        { outcome := Outcome.returned 0
          calls := []
          cerr := ["Error reading the file: " ++ filename] }
      else
        let csource := c_str source
        let program := w.glCreateShaderProgramv shaderType csource
        let status := w.glGetProgramiv program GL_LINK_STATUS
        if status ≠ (GL_TRUE : Int) then
          { outcome := Outcome.exited 1
            calls := [ShaderCall.createShaderProgramv shaderType 1 csource,
                      ShaderCall.getProgramiv program GL_LINK_STATUS,
                      ShaderCall.getProgramInfoLog program 10000]
            cerr := ["Failed to compile/link shader program:",
                     w.glGetProgramInfoLog program 10000] }
        else
          { outcome := Outcome.returned program
            calls := [ShaderCall.createShaderProgramv shaderType 1 csource,
                      ShaderCall.getProgramiv program GL_LINK_STATUS]
            cerr := [] }
  | FileRead.readThrows =>
      { outcome := Outcome.threw
        calls := []
        cerr := [] }

/-! ## `renderScene` -/

/-- The parts of the platform that `renderScene` uses and that are not code of the
demo: single-precision arithmetic, the glm matrix library, and the screen constants of
`buddha.h`. -/
structure Platform (F M : Type) where
  /-- The `float` whose value is the given rational (used at representable values). -/
  lit : ℚ → F
  add : F → F → F
  mul : F → F → F
  neg : F → F
  fmodf : F → F → F
  sin : F → F
  cos : F → F
  /-- The matrix `glm::mat4(s)`. -/
  mat4 : F → M
  /-- The matrix `glm::rotate(m, angle, axis)`. -/
  rotate : M → F → Vec3 F → M
  /-- The matrix `glm::translate(m, v)`. -/
  translate : M → Vec3 F → M
  /-- The product `a * b` of two `glm::mat4`. -/
  matMul : M → M → M
  SCREEN_WIDTH : Int
  SCREEN_HEIGHT : Int

/-- The value of the literal `0.3f`. -/
def lit_0_3f : ℚ := 10066330 / 33554432

/-- The value of `(float)M_PI`. -/
def lit_M_PI_f : ℚ := 13176795 / 4194304

/-- An OpenGL call issued by `renderScene`; `M` is the type of the matrices of the
`Transform` handed to `glBufferData`. -/
inductive GLCall (M : Type)
  | bindBuffer (target : GLenum) (buffer : GLuint)
  | bufferData (target : GLenum) (data : Transform M) (usage : GLenum)
  | bindFramebuffer (target : GLenum) (framebuffer : GLuint)
  | viewport (x y width height : Int)
  | clearDepth (depth : ℚ)
  | clearColor (red green blue alpha : ℚ)
  | clear (mask : Nat)
  | beginQuery (target : GLenum) (id : GLuint)
  | bindProgramPipeline (pipeline : GLuint)
  | enable (cap : GLenum)
  | disable (cap : GLenum)
  | activeTexture (texture : GLenum)
  | bindTexture (target : GLenum) (texture : GLuint)
  | bindImageTexture (unit : GLuint) (texture : GLuint) (level : Int) (layered : Nat)
      (layer : Int) (access : GLenum) (format : GLenum)
  | bindBufferBase (target : GLenum) (index : GLuint) (buffer : GLuint)
  | bindVertexArray (array : GLuint)
  | drawElements (mode : GLenum) (count : Int) (type : GLenum) (indices : Nat)
  | drawArrays (mode : GLenum) (first : Int) (count : Int)
  | endQuery (target : GLenum)
  | getQueryObjectui64v (id : GLuint) (pname : GLenum)
  deriving DecidableEq, Repr

namespace GLCall

/-- Whether a call is a draw call. -/
def isDraw {M : Type} : GLCall M → Bool
  | drawElements _ _ _ _ => true
  | drawArrays _ _ _ => true
  | _ => false

/-- Whether a call is `glBeginQuery`. -/
def isBeginQuery {M : Type} : GLCall M → Bool
  | beginQuery _ _ => true
  | _ => false

end GLCall

/-- The unary minus of `glm::vec3`. -/
def Vec3.negate {F M : Type} (env : Platform F M) (v : Vec3 F) : Vec3 F :=
  { x := env.neg v.x, y := env.neg v.y, z := env.neg v.z }

/-- Lines 295-305 of `renderScene`: the camera and transform update. -/
def updateTransform {F M : Type} (env : Platform F M) (s : BuddhaDemo F M) (dtsec : F) :
    BuddhaDemo F M :=
  -- update camera position
  let cameraRotationFactor :=
    env.fmodf (env.add s.cameraRotationFactor (env.mul dtsec (env.lit lit_0_3f)))
      (env.mul (env.lit 2) (env.lit lit_M_PI_f))
  let position : Vec3 F :=
    { x := env.mul (env.sin cameraRotationFactor) (env.lit 5)
      y := env.lit 0
      z := env.mul (env.cos cameraRotationFactor) (env.lit 5) }
  let rotation : Vec3 F :=
    { x := env.lit 0, y := env.neg cameraRotationFactor, z := env.lit 0 }
  -- update camera data to uniform buffer
  let mv0 := env.mat4 (env.lit 1)
  let mv1 := env.rotate mv0 rotation.x { x := env.lit 1, y := env.lit 0, z := env.lit 0 }
  let mv2 := env.rotate mv1 rotation.y { x := env.lit 0, y := env.lit 1, z := env.lit 0 }
  let mv3 := env.rotate mv2 rotation.z { x := env.lit 0, y := env.lit 0, z := env.lit 1 }
  let mv4 := env.translate mv3 (Vec3.negate env position)
  let mvp := env.matMul s.transform.ProjectionMatrix mv4
  { s with
    cameraRotationFactor := cameraRotationFactor
    camera := { position := position, rotation := rotation }
    transform :=
      { ModelViewMatrix := mv4
        ProjectionMatrix := s.transform.ProjectionMatrix
        MVPMatrix := mvp } }

/-- The draw call of lines 337-341 for a draw command. -/
def drawCall {M : Type} (c : DrawCommand) : GLCall M :=
  if c.useIndices then
    GLCall.drawElements c.prim_type (toGLint c.indexCount) GL_UNSIGNED_INT c.indexOffset
  else
    GLCall.drawArrays c.prim_type (toGLint c.firstVertex) (toGLint c.vertexCount)

/-- `BuddhaDemo::renderScene(dtsec, mode, elapsedNanoseconds)`: the object after the call
and the OpenGL calls issued, in order.  `elapsedNanoseconds` tells whether the pointer
of that name is non-null. -/
def renderScene {F M : Type} (env : Platform F M) (s : BuddhaDemo F M) (dtsec : F)
    (mode : VertexPullingMode) (elapsedNanoseconds : Bool) : BuddhaDemo F M × List (GLCall M) :=
  let s1 := updateTransform env s dtsec
  let calls : List (GLCall M) :=
    [ GLCall.bindBuffer GL_UNIFORM_BUFFER s1.transformUB,
      GLCall.bufferData GL_UNIFORM_BUFFER s1.transform GL_STATIC_DRAW,
      GLCall.bindBuffer GL_UNIFORM_BUFFER 0,
      GLCall.bindFramebuffer GL_FRAMEBUFFER 0,
      GLCall.viewport 0 0 env.SCREEN_WIDTH env.SCREEN_HEIGHT,
      GLCall.clearDepth 1,
      GLCall.clearColor 0 0 0 0,
      GLCall.clear (GL_COLOR_BUFFER_BIT ||| GL_DEPTH_BUFFER_BIT),
      GLCall.beginQuery GL_TIME_ELAPSED s1.timeElapsedQuery,
      -- render scene
      GLCall.bindProgramPipeline (s1.progPipeline mode),
      GLCall.enable GL_DEPTH_TEST,
      GLCall.enable GL_FRAMEBUFFER_SRGB,
      GLCall.enable GL_CULL_FACE,
      GLCall.activeTexture GL_TEXTURE0,
      GLCall.bindTexture GL_TEXTURE_BUFFER s1.indexTexBuffer,
      GLCall.activeTexture GL_TEXTURE1,
      GLCall.bindTexture GL_TEXTURE_BUFFER s1.vertexTexBuffer,
      GLCall.bindImageTexture 1 s1.vertexTexBuffer 0 GL_FALSE 0 GL_READ_ONLY GL_R32F,
      GLCall.bindBufferBase GL_UNIFORM_BUFFER 0 s1.transformUB,
      GLCall.bindVertexArray s1.vertexArray,
      drawCall (s1.drawCmd mode),
      GLCall.bindVertexArray 0,
      GLCall.disable GL_CULL_FACE,
      GLCall.disable GL_FRAMEBUFFER_SRGB,
      GLCall.disable GL_DEPTH_TEST,
      GLCall.bindProgramPipeline 0,
      GLCall.endQuery GL_TIME_ELAPSED ] ++
    (if elapsedNanoseconds then
      [GLCall.getQueryObjectui64v s1.timeElapsedQuery GL_QUERY_RESULT]
    else [])
  (s1, calls)

/-! ## The free platform -/

/-- A `float` expression: the value of a `float` in the free platform. -/
inductive FloatTerm
  | lit (q : ℚ)
  | add (a b : FloatTerm)
  | mul (a b : FloatTerm)
  | neg (a : FloatTerm)
  | fmodf (a b : FloatTerm)
  | sin (a : FloatTerm)
  | cos (a : FloatTerm)
  deriving DecidableEq, Repr

/-- A `glm::mat4` expression: the value of a matrix in the free platform. -/
inductive Mat4Term
  | mat4 (s : FloatTerm)
  | rotate (m : Mat4Term) (angle : FloatTerm) (axis : Vec3 FloatTerm)
  | translate (m : Mat4Term) (v : Vec3 FloatTerm)
  | matMul (a b : Mat4Term)
  deriving DecidableEq, Repr

/-- The free platform for a screen of the given size: every operation builds the
expression it stands for. -/
def freePlatform (width height : Int) : Platform FloatTerm Mat4Term :=
  { lit := FloatTerm.lit
    add := FloatTerm.add
    mul := FloatTerm.mul
    neg := FloatTerm.neg
    fmodf := FloatTerm.fmodf
    sin := FloatTerm.sin
    cos := FloatTerm.cos
    mat4 := Mat4Term.mat4
    rotate := Mat4Term.rotate
    translate := Mat4Term.translate
    matMul := Mat4Term.matMul
    SCREEN_WIDTH := width
    SCREEN_HEIGHT := height }

/-- An object whose storage is filled with zero bytes: the members in the state they
have when the constructor starts on zeroed memory. -/
def zeroed : BuddhaDemo FloatTerm Mat4Term :=
  { camera :=
      { position := { x := FloatTerm.lit 0, y := FloatTerm.lit 0, z := FloatTerm.lit 0 }
        rotation := { x := FloatTerm.lit 0, y := FloatTerm.lit 0, z := FloatTerm.lit 0 } }
    transform :=
      { ModelViewMatrix := Mat4Term.mat4 (FloatTerm.lit 0)
        ProjectionMatrix := Mat4Term.mat4 (FloatTerm.lit 0)
        MVPMatrix := Mat4Term.mat4 (FloatTerm.lit 0) }
    transformUB := 0
    fragmentProg := 0
    vertexProg := fun _ => 0
    progPipeline := fun _ => 0
    indexBuffer := 0
    vertexBuffer := 0
    vertexArray := 0
    indexTexBuffer := 0
    vertexTexBuffer := 0
    timeElapsedQuery := 0
    drawCmd := fun _ => { useIndices := false, prim_type := 0, word0 := 0, word1 := 0 }
    cameraRotationFactor := FloatTerm.lit 0 }

/-- The mesh of one triangle with the vertices (0,0,0), (1,0,0), (0,1,0). -/
def triangle : WaveFrontObj FloatTerm :=
  { Positions :=
      [ { x := FloatTerm.lit 0, y := FloatTerm.lit 0, z := FloatTerm.lit 0 },
        { x := FloatTerm.lit 1, y := FloatTerm.lit 0, z := FloatTerm.lit 0 },
        { x := FloatTerm.lit 0, y := FloatTerm.lit 1, z := FloatTerm.lit 0 } ]
    Normals :=
      [ { x := FloatTerm.lit 0, y := FloatTerm.lit 0, z := FloatTerm.lit 1 },
        { x := FloatTerm.lit 0, y := FloatTerm.lit 0, z := FloatTerm.lit 1 },
        { x := FloatTerm.lit 0, y := FloatTerm.lit 0, z := FloatTerm.lit 1 } ]
    Indices := [0, 1, 2] }

/-- Object names as a driver hands them out to `loadModels`. -/
def someNames : GenNames :=
  { indexBuffer := 2, vertexBuffer := 3, vertexArray := 1, indexTexBuffer := 1,
    vertexTexBuffer := 2 }

/-- A file system without shader files, and a driver that links every program. -/
def noFiles : ShaderWorld :=
  { readFile := fun _ => FileRead.cannotOpen
    glCreateShaderProgramv := fun _ _ => 1
    glGetProgramiv := fun _ _ => 1
    glGetProgramInfoLog := fun _ _ => "" }

/-- A file system in which every file opens and every read fails with an exception of
the stream buffer, as for a path that names a directory. -/
def failingRead : ShaderWorld :=
  { readFile := fun _ => FileRead.readThrows
    glCreateShaderProgramv := fun _ _ => 1
    glGetProgramiv := fun _ _ => 1
    glGetProgramInfoLog := fun _ _ => "" }

/-- A file system in which every file opens and reads as `text`, and a driver that
names every program `7` and reports `status` for every query. -/
def oneFile (text : String) (status : Int) : ShaderWorld :=
  { readFile := fun _ => FileRead.opened text false
    glCreateShaderProgramv := fun _ _ => 7
    glGetProgramiv := fun _ _ => status
    glGetProgramInfoLog := fun _ _ => "0(1) : error C0000: unexpected token" }

/-- The free platform with an example screen of 1024 by 768 pixels. -/
def demoPlatform : Platform FloatTerm Mat4Term := freePlatform 1024 768

/-- A frame time of 1/64 s, a representable `float`. -/
def dt64 : FloatTerm := FloatTerm.lit (1 / 64)

/-- The object `zeroed` with other contents in the members `camera`,
`transform.ModelViewMatrix` and `transform.MVPMatrix`. -/
def stale : BuddhaDemo FloatTerm Mat4Term :=
  { zeroed with
    camera :=
      { position := { x := FloatTerm.lit 3, y := FloatTerm.lit 4, z := FloatTerm.lit 5 }
        rotation := { x := FloatTerm.lit 1, y := FloatTerm.lit 1, z := FloatTerm.lit 1 } }
    transform :=
      { ModelViewMatrix := Mat4Term.mat4 (FloatTerm.lit 7)
        ProjectionMatrix := zeroed.transform.ProjectionMatrix
        MVPMatrix := Mat4Term.mat4 (FloatTerm.lit 9) } }

/-! ## The binary32 platform

IEEE-754 binary32 arithmetic for the operations of line 295, `+`, `*` and `fmodf`, each
`+` and `*` rounding once to binary32, to nearest with ties to even (no excess
precision, no contraction of `a + b * c`).  A number is held by its rational value; the
sign of a zero is not held, since the value of no result of `+`, `*`, unary `-` or
`fmodf` depends on it. -/

/-- A binary32 datum: a finite number of value `v`, an infinity, or a NaN. -/
inductive Binary32
  | finite (v : ℚ)
  | posInf
  | negInf
  | nan
  deriving DecidableEq, Repr

namespace Binary32

/-- The integer nearest to `t`, the even one of the two when `t` is halfway. -/
def roundHalfEven (t : ℚ) : ℤ :=
  if t - ⌊t⌋ < 1 / 2 then ⌊t⌋
  else if 1 / 2 < t - ⌊t⌋ then ⌊t⌋ + 1
  else if ⌊t⌋ % 2 = 0 then ⌊t⌋ else ⌊t⌋ + 1

/-- The exponent of the spacing of the binary32 numbers around `q`: 24 significant
bits, and `2 ^ (-149)` throughout the subnormal range. -/
def ulpExp (q : ℚ) : ℤ := max (Int.log 2 |q| - 23) (-149)

/-- Rounding of an exact result to binary32: to nearest, ties to even, overflow from
`2 ^ 128` to the infinities. -/
def round32 (q : ℚ) : Binary32 :=
  if (2 : ℚ) ^ 128 ≤ (roundHalfEven (q / (2 : ℚ) ^ ulpExp q) : ℚ) * (2 : ℚ) ^ ulpExp q then
    posInf
  else if (roundHalfEven (q / (2 : ℚ) ^ ulpExp q) : ℚ) * (2 : ℚ) ^ ulpExp q ≤ -(2 : ℚ) ^ 128 then
    negInf
  else finite ((roundHalfEven (q / (2 : ℚ) ^ ulpExp q) : ℚ) * (2 : ℚ) ^ ulpExp q)

/-- Rounding of `t` toward zero to an integer. -/
def truncate (t : ℚ) : ℤ := if 0 ≤ t then ⌊t⌋ else ⌈t⌉

/-- The sum `a + b` of two `float`s. -/
def fadd : Binary32 → Binary32 → Binary32
  | finite a, finite b => round32 (a + b)
  | finite _, posInf => posInf
  | finite _, negInf => negInf
  | posInf, finite _ => posInf
  | posInf, posInf => posInf
  | negInf, finite _ => negInf
  | negInf, negInf => negInf
  | _, _ => nan

/-- The product `a * b` of two `float`s. -/
def fmul : Binary32 → Binary32 → Binary32
  | finite a, finite b => round32 (a * b)
  | finite a, posInf => if a = 0 then nan else if 0 < a then posInf else negInf
  | finite a, negInf => if a = 0 then nan else if 0 < a then negInf else posInf
  | posInf, finite b => if b = 0 then nan else if 0 < b then posInf else negInf
  | negInf, finite b => if b = 0 then nan else if 0 < b then negInf else posInf
  | posInf, posInf => posInf
  | posInf, negInf => negInf
  | negInf, posInf => negInf
  | negInf, negInf => posInf
  | _, _ => nan

/-- The negation `-a` of a `float`. -/
def fneg : Binary32 → Binary32
  | finite a => finite (-a)
  | posInf => negInf
  | negInf => posInf
  | nan => nan

/-- The C function `fmodf(x, y)`: for finite `x` and finite nonzero `y` the exact
`x - n * y` with `n` the quotient `x / y` truncated toward zero; `x` for finite `x` and
infinite `y`; NaN when `x` is infinite, `y` is zero, or an argument is NaN. -/
def fmodf : Binary32 → Binary32 → Binary32
  | finite x, finite y => if y = 0 then nan else finite (x - y * truncate (x / y))
  | finite x, posInf => finite x
  | finite x, negInf => finite x
  | _, _ => nan

/-- The comparison `x >= 0` of C on a `float`. -/
def nonneg : Binary32 → Prop
  | finite v => 0 ≤ v
  | posInf => True
  | negInf => False
  | nan => False

/-- The datum is a number `p` with `0 <= p < 2 * pi`. -/
def inPhaseRange : Binary32 → Prop
  | finite v => 0 ≤ (v : ℝ) ∧ (v : ℝ) < 2 * Real.pi
  | posInf => False
  | negInf => False
  | nan => False

end Binary32

/-- The parts of a binary32 platform that IEEE-754 does not fix: the functions `sin`
and `cos` of the C library, the glm matrix library, and the screen constants. -/
structure Library (M : Type) where
  sin : Binary32 → Binary32
  cos : Binary32 → Binary32
  mat4 : Binary32 → M
  rotate : M → Binary32 → Vec3 Binary32 → M
  translate : M → Vec3 Binary32 → M
  matMul : M → M → M
  SCREEN_WIDTH : Int
  SCREEN_HEIGHT : Int

/-- The platform with binary32 arithmetic over a library. -/
def binary32Platform {M : Type} (lib : Library M) : Platform Binary32 M :=
  { lit := Binary32.finite
    add := Binary32.fadd
    mul := Binary32.fmul
    neg := Binary32.fneg
    fmodf := Binary32.fmodf
    sin := lib.sin
    cos := lib.cos
    mat4 := lib.mat4
    rotate := lib.rotate
    translate := lib.translate
    matMul := lib.matMul
    SCREEN_WIDTH := lib.SCREEN_WIDTH
    SCREEN_HEIGHT := lib.SCREEN_HEIGHT }

/-- A sequence of `renderScene` calls, one per frame `(dtsec, mode, elapsedNanoseconds)`,
on the object that the call before left. -/
def renderFrames {F M : Type} (env : Platform F M) (s : BuddhaDemo F M) :
    List (F × VertexPullingMode × Bool) → BuddhaDemo F M
  | [] => s
  | f :: fs => renderFrames env (renderScene env s f.1 f.2.1 f.2.2).1 fs

/-- A matrix over binary32 entries, held as the expression that computes it. -/
inductive Mat4Value
  | mat4 (s : Binary32)
  | rotate (m : Mat4Value) (angle : Binary32) (axis : Vec3 Binary32)
  | translate (m : Mat4Value) (v : Vec3 Binary32)
  | matMul (a b : Mat4Value)
  deriving DecidableEq, Repr

/-- A library to run `renderScene` on concrete inputs.  Matrices are kept as
expressions; `sin` and `cos` are the Taylor polynomials `x - x^3/6` and `1 - x^2/2`
rounded to binary32, in place of the more accurate ones of a C library. -/
def sampleLibrary : Library Mat4Value :=
  { sin := fun x =>
      match x with
      | Binary32.finite v => Binary32.round32 (v - v ^ 3 / 6)
      | _ => Binary32.nan
    cos := fun x =>
      match x with
      | Binary32.finite v => Binary32.round32 (1 - v ^ 2 / 2)
      | _ => Binary32.nan
    mat4 := Mat4Value.mat4
    rotate := Mat4Value.rotate
    translate := Mat4Value.translate
    matMul := Mat4Value.matMul
    SCREEN_WIDTH := 1024
    SCREEN_HEIGHT := 768 }

/-- An object as the constructor leaves its phase: `cameraRotationFactor = 0.f`
(line 99); the other members as on zeroed storage. -/
def constructed : BuddhaDemo Binary32 Mat4Value :=
  { camera :=
      { position := { x := Binary32.finite 0, y := Binary32.finite 0, z := Binary32.finite 0 }
        rotation := { x := Binary32.finite 0, y := Binary32.finite 0, z := Binary32.finite 0 } }
    transform :=
      { ModelViewMatrix := Mat4Value.mat4 (Binary32.finite 0)
        ProjectionMatrix := Mat4Value.mat4 (Binary32.finite 0)
        MVPMatrix := Mat4Value.mat4 (Binary32.finite 0) }
    transformUB := 0
    fragmentProg := 0
    vertexProg := fun _ => 0
    progPipeline := fun _ => 0
    indexBuffer := 0
    vertexBuffer := 0
    vertexArray := 0
    indexTexBuffer := 0
    vertexTexBuffer := 0
    timeElapsedQuery := 0
    drawCmd := fun _ => { useIndices := false, prim_type := 0, word0 := 0, word1 := 0 }
    cameraRotationFactor := Binary32.finite 0 }

/-! ## Facts about `loadModels` -/

/-- `loadModels` assigns no member of `drawCmd[FETCHER_IMAGE_SOA_MODE]`: after the call
the entry holds what it held before. -/
theorem loadModels_drawCmd_soa {F M : Type} (s : BuddhaDemo F M) (names : GenNames)
    (obj : WaveFrontObj F) :
    (loadModels s names obj).drawCmd FETCHER_IMAGE_SOA_MODE = s.drawCmd FETCHER_IMAGE_SOA_MODE := by
  simp [loadModels, setAt]

/-- The draw commands that `loadModels` does assign: three indexed commands and one
non-indexed command over the triangles, starting at 0, with the index count of the
mesh converted to `GLuint`. -/
theorem loadModels_drawCmd_assigned {F M : Type} (s : BuddhaDemo F M) (names : GenNames)
    (obj : WaveFrontObj F) :
    (loadModels s names obj).drawCmd FIXED_FUNCTION_MODE =
        { useIndices := true, prim_type := GL_TRIANGLES, word0 := 0,
          word1 := toGLuint obj.Indices.length } ∧
    (loadModels s names obj).drawCmd FETCHER_MODE =
        { useIndices := true, prim_type := GL_TRIANGLES, word0 := 0,
          word1 := toGLuint obj.Indices.length } ∧
    (loadModels s names obj).drawCmd FETCHER_IMAGE_AOS_MODE =
        { useIndices := true, prim_type := GL_TRIANGLES, word0 := 0,
          word1 := toGLuint obj.Indices.length } ∧
    (loadModels s names obj).drawCmd PULLER_MODE =
        { useIndices := false, prim_type := GL_TRIANGLES, word0 := 0,
          word1 := toGLuint obj.Indices.length } := by
  simp [loadModels, setAt]

/-- For a mesh of fewer than `2 ^ 32` indices, the count field of each of the four draw
commands that `loadModels` assigns is the number of indices of the mesh. -/
theorem loadModels_count_assigned {F M : Type} (s : BuddhaDemo F M) (names : GenNames)
    (obj : WaveFrontObj F) (mode : VertexPullingMode) (hmode : mode ≠ FETCHER_IMAGE_SOA_MODE)
    (hN : obj.Indices.length < 2 ^ 32) :
    ((loadModels s names obj).drawCmd mode).count = obj.Indices.length := by
  have hn : toGLuint obj.Indices.length = obj.Indices.length := Nat.mod_eq_of_lt hN
  obtain ⟨h1, h2, h3, h4⟩ := loadModels_drawCmd_assigned s names obj
  cases mode
  · rw [h1]; simp [DrawCommand.count, DrawCommand.indexCount, hn]
  · rw [h2]; simp [DrawCommand.count, DrawCommand.indexCount, hn]
  · rw [h3]; simp [DrawCommand.count, DrawCommand.indexCount, hn]
  · exact absurd rfl hmode
  · rw [h4]; simp [DrawCommand.count, DrawCommand.vertexCount, hn]

/-- C1, evaluated where it fails.  After `loadModels` has run on the one-triangle mesh
(3 indices) in an object on zeroed storage, the count field is 3 in the four modes
whose draw command `loadModels` assigns, and in FETCHER_IMAGE_SOA_MODE it is still the
0 found in the storage: the command of that mode is never assigned. -/
theorem loadModels_soa_count_not_index_count :
    triangle.Indices.length = 3 ∧
    ((loadModels zeroed someNames triangle).drawCmd FIXED_FUNCTION_MODE).count = 3 ∧
    ((loadModels zeroed someNames triangle).drawCmd FETCHER_MODE).count = 3 ∧
    ((loadModels zeroed someNames triangle).drawCmd FETCHER_IMAGE_AOS_MODE).count = 3 ∧
    ((loadModels zeroed someNames triangle).drawCmd PULLER_MODE).count = 3 ∧
    ((loadModels zeroed someNames triangle).drawCmd FETCHER_IMAGE_SOA_MODE).count = 0 ∧
    ((loadModels zeroed someNames triangle).drawCmd FETCHER_IMAGE_SOA_MODE).count ≠
      triangle.Indices.length := by
  refine ⟨rfl, rfl, rfl, rfl, rfl, rfl, ?_⟩
  decide

/-! ## Facts about `loadShaderProgramFromFile` -/

/-- When the file cannot be opened, `loadShaderProgramFromFile` returns the program
name 0 to its caller (it does not exit) and has issued no OpenGL call: nothing was
submitted for compilation. -/
theorem loadShaderProgramFromFile_cannot_open (w : ShaderWorld) (filename : String)
    (shaderType : GLenum) (h : w.readFile filename = FileRead.cannotOpen) :
    (loadShaderProgramFromFile w filename shaderType).outcome = Outcome.returned 0 ∧
    (loadShaderProgramFromFile w filename shaderType).calls = [] := by
  simp [loadShaderProgramFromFile, h]

/-- The fragment shader is missing: 0 is returned and nothing is submitted. -/
theorem loadShaderProgramFromFile_cannot_open_example :
    (loadShaderProgramFromFile noFiles "shaders/common.frag" GL_FRAGMENT_SHADER).outcome =
        Outcome.returned 0 ∧
    (loadShaderProgramFromFile noFiles "shaders/common.frag" GL_FRAGMENT_SHADER).calls = [] :=
  loadShaderProgramFromFile_cannot_open noFiles "shaders/common.frag" GL_FRAGMENT_SHADER rfl

/-- C2, evaluated where it fails: a file that opens and whose read fails.  When the
stream buffer raises, the exception leaves `loadShaderProgramFromFile`, which so does
not return 0; when the read is cut short instead, the stream is not bad, and the text
read so far is submitted for compilation (here the driver links it and its program 7 is
returned).  In neither case is the return of line 224 reached. -/
theorem loadShaderProgramFromFile_failed_read :
    (loadShaderProgramFromFile failingRead "shaders/common.frag" GL_FRAGMENT_SHADER).outcome =
        Outcome.threw ∧
    (loadShaderProgramFromFile failingRead "shaders/common.frag" GL_FRAGMENT_SHADER).outcome ≠
        Outcome.returned 0 ∧
    (loadShaderProgramFromFile (oneFile "void main() \x7b" 1) "shaders/common.frag"
        GL_FRAGMENT_SHADER).calls =
      [ShaderCall.createShaderProgramv GL_FRAGMENT_SHADER 1 "void main() \x7b",
       ShaderCall.getProgramiv 7 GL_LINK_STATUS] ∧
    (loadShaderProgramFromFile (oneFile "void main() \x7b" 1) "shaders/common.frag"
        GL_FRAGMENT_SHADER).outcome = Outcome.returned 7 := by
  refine ⟨rfl, ?_, ?_, ?_⟩
  · simp [loadShaderProgramFromFile, failingRead]
  · simp [loadShaderProgramFromFile, oneFile, c_str, GL_TRUE]
  · simp [loadShaderProgramFromFile, oneFile, GL_TRUE]

/-- C3.  When the file is read successfully, the text is submitted once, and with
`program` the name the driver returns and `status` the link status it reports for it:
the call exits exactly when `status` is not `GL_TRUE`, and then with status 1; when
`status` is `GL_TRUE` it returns `program` to its caller. -/
theorem loadShaderProgramFromFile_link_status (w : ShaderWorld) (filename : String)
    (shaderType : GLenum) (source : String)
    (h : w.readFile filename = FileRead.opened source false) :
    ((∃ code, (loadShaderProgramFromFile w filename shaderType).outcome = Outcome.exited code) ↔
      w.glGetProgramiv (w.glCreateShaderProgramv shaderType (c_str source)) GL_LINK_STATUS ≠
        (GL_TRUE : Int)) ∧
    (w.glGetProgramiv (w.glCreateShaderProgramv shaderType (c_str source)) GL_LINK_STATUS ≠
        (GL_TRUE : Int) →
      (loadShaderProgramFromFile w filename shaderType).outcome = Outcome.exited 1) ∧
    (w.glGetProgramiv (w.glCreateShaderProgramv shaderType (c_str source)) GL_LINK_STATUS =
        (GL_TRUE : Int) →
      (loadShaderProgramFromFile w filename shaderType).outcome =
        Outcome.returned (w.glCreateShaderProgramv shaderType (c_str source))) := by
  by_cases hs : w.glGetProgramiv (w.glCreateShaderProgramv shaderType (c_str source))
      GL_LINK_STATUS = (GL_TRUE : Int)
  · simp [loadShaderProgramFromFile, h, hs]
  · simp [loadShaderProgramFromFile, h, hs]

/-- C3 at a vertex shader that links (the driver reports `GL_TRUE`: program 7 is
returned) and at one that does not (the driver reports 0: exit with status 1). -/
theorem loadShaderProgramFromFile_link_status_witness :
    (loadShaderProgramFromFile (oneFile "void main() \x7b \x7d" 1) "shaders/fixed.vert"
        GL_VERTEX_SHADER).outcome = Outcome.returned 7 ∧
    (loadShaderProgramFromFile (oneFile "void main() \x7b" 0) "shaders/fixed.vert"
        GL_VERTEX_SHADER).outcome = Outcome.exited 1 :=
  ⟨(loadShaderProgramFromFile_link_status (oneFile "void main() \x7b \x7d" 1)
      "shaders/fixed.vert" GL_VERTEX_SHADER "void main() \x7b \x7d" rfl).2.2 rfl,
   (loadShaderProgramFromFile_link_status (oneFile "void main() \x7b" 0)
      "shaders/fixed.vert" GL_VERTEX_SHADER "void main() \x7b" rfl).2.1 (by decide)⟩

/-! ## Facts about `renderScene` -/

/-- C7.  After a `renderScene` call the combined matrix is the product of the
projection matrix and the model-view matrix of the object; the projection matrix is the
one from before the call; the model-view matrix is built from `mat4(1)` by the three
rotations and the translation, out of the new phase alone; and a prior state with the
same phase and projection matrix, whatever its camera, model-view and combined matrix,
ends with the same `Transform`. -/
theorem renderScene_transform_fresh {F M : Type} (env : Platform F M) (s : BuddhaDemo F M)
    (dtsec : F) (mode : VertexPullingMode) (q : Bool) :
    (renderScene env s dtsec mode q).1.transform.MVPMatrix =
      env.matMul (renderScene env s dtsec mode q).1.transform.ProjectionMatrix
        (renderScene env s dtsec mode q).1.transform.ModelViewMatrix ∧
    (renderScene env s dtsec mode q).1.transform.ProjectionMatrix =
      s.transform.ProjectionMatrix ∧
    (renderScene env s dtsec mode q).1.transform.ModelViewMatrix =
      env.translate
        (env.rotate
          (env.rotate
            (env.rotate (env.mat4 (env.lit 1)) (env.lit 0)
              { x := env.lit 1, y := env.lit 0, z := env.lit 0 })
            (env.neg (renderScene env s dtsec mode q).1.cameraRotationFactor)
            { x := env.lit 0, y := env.lit 1, z := env.lit 0 })
          (env.lit 0) { x := env.lit 0, y := env.lit 0, z := env.lit 1 })
        { x := env.neg
            (env.mul (env.sin (renderScene env s dtsec mode q).1.cameraRotationFactor)
              (env.lit 5))
          y := env.neg (env.lit 0)
          z := env.neg
            (env.mul (env.cos (renderScene env s dtsec mode q).1.cameraRotationFactor)
              (env.lit 5)) } ∧
    ∀ t : BuddhaDemo F M,
      t.cameraRotationFactor = s.cameraRotationFactor →
      t.transform.ProjectionMatrix = s.transform.ProjectionMatrix →
      (renderScene env t dtsec mode q).1.transform = (renderScene env s dtsec mode q).1.transform := by
  refine ⟨rfl, rfl, rfl, ?_⟩
  intro t hphase hproj
  simp [renderScene, updateTransform, hphase, hproj]

/-- C7 at two objects that agree on phase and projection matrix and differ in camera,
model-view matrix and combined matrix. -/
theorem renderScene_transform_fresh_witness :
    stale.transform.ModelViewMatrix ≠ zeroed.transform.ModelViewMatrix ∧
    (renderScene demoPlatform stale dt64 PULLER_MODE false).1.transform =
      (renderScene demoPlatform zeroed dt64 PULLER_MODE false).1.transform :=
  ⟨by decide,
   (renderScene_transform_fresh demoPlatform zeroed dt64 PULLER_MODE false).2.2.2 stale rfl rfl⟩

/-- Every `renderScene` call issues exactly one draw call, the one of the draw command
of the mode. -/
theorem renderScene_one_draw {F M : Type} (env : Platform F M) (s : BuddhaDemo F M)
    (dtsec : F) (mode : VertexPullingMode) (q : Bool) :
    (renderScene env s dtsec mode q).2.filter GLCall.isDraw = [drawCall (s.drawCmd mode)] := by
  cases q <;> cases hu : (s.drawCmd mode).useIndices <;>
    simp [renderScene, updateTransform, drawCall, GLCall.isDraw, List.filter, hu]

/-- In the four modes whose draw command `loadModels` assigns, after loading a mesh of
fewer than `2 ^ 31` indices one `renderScene` call issues exactly one draw call, over
the triangles of the whole mesh from 0: an indexed draw in the three indexed modes and
a non-indexed draw in PULLER_MODE. -/
theorem renderScene_draw_assigned {F M : Type} (env : Platform F M) (s : BuddhaDemo F M)
    (names : GenNames) (obj : WaveFrontObj F) (dtsec : F) (mode : VertexPullingMode) (q : Bool)
    (hmode : mode ≠ FETCHER_IMAGE_SOA_MODE) (hN : obj.Indices.length < 2 ^ 31) :
    (renderScene env (loadModels s names obj) dtsec mode q).2.filter GLCall.isDraw =
      [if mode = PULLER_MODE then GLCall.drawArrays GL_TRIANGLES 0 obj.Indices.length
       else GLCall.drawElements GL_TRIANGLES obj.Indices.length GL_UNSIGNED_INT 0] := by
  have hn : toGLuint obj.Indices.length = obj.Indices.length :=
    Nat.mod_eq_of_lt (by omega)
  have hi : toGLint obj.Indices.length = (obj.Indices.length : Int) := by
    have h32 : obj.Indices.length % 2 ^ 32 = obj.Indices.length := Nat.mod_eq_of_lt (by omega)
    unfold toGLint
    rw [h32, if_pos hN]
  have h0 : toGLint 0 = 0 := by decide
  obtain ⟨h1, h2, h3, h4⟩ := loadModels_drawCmd_assigned s names obj
  rw [renderScene_one_draw]
  cases mode
  · rw [h1]; simp [drawCall, DrawCommand.indexCount, DrawCommand.indexOffset, hn, hi]
  · rw [h2]; simp [drawCall, DrawCommand.indexCount, DrawCommand.indexOffset, hn, hi]
  · rw [h3]; simp [drawCall, DrawCommand.indexCount, DrawCommand.indexOffset, hn, hi]
  · exact absurd rfl hmode
  · rw [h4]; simp [drawCall, DrawCommand.vertexCount, DrawCommand.firstVertex, hn, hi, h0]

/-- C8, evaluated where it fails.  After loading the one-triangle mesh (3 indices) into
an object on zeroed storage, one `renderScene` call issues one draw call in every mode;
it covers 3 indices or vertices from 0 in the four modes whose draw command `loadModels`
assigns, and in FETCHER_IMAGE_SOA_MODE it is `glDrawArrays(0, 0, 0)`, the draw of the
unassigned command, covering no vertex. -/
theorem renderScene_soa_draw_not_index_count :
    (renderScene demoPlatform (loadModels zeroed someNames triangle) dt64
        FIXED_FUNCTION_MODE false).2.filter GLCall.isDraw =
      [GLCall.drawElements GL_TRIANGLES 3 GL_UNSIGNED_INT 0] ∧
    (renderScene demoPlatform (loadModels zeroed someNames triangle) dt64
        FETCHER_MODE false).2.filter GLCall.isDraw =
      [GLCall.drawElements GL_TRIANGLES 3 GL_UNSIGNED_INT 0] ∧
    (renderScene demoPlatform (loadModels zeroed someNames triangle) dt64
        FETCHER_IMAGE_AOS_MODE false).2.filter GLCall.isDraw =
      [GLCall.drawElements GL_TRIANGLES 3 GL_UNSIGNED_INT 0] ∧
    (renderScene demoPlatform (loadModels zeroed someNames triangle) dt64
        PULLER_MODE false).2.filter GLCall.isDraw =
      [GLCall.drawArrays GL_TRIANGLES 0 3] ∧
    (renderScene demoPlatform (loadModels zeroed someNames triangle) dt64
        FETCHER_IMAGE_SOA_MODE false).2.filter GLCall.isDraw =
      [GLCall.drawArrays 0 0 0] := by
  refine ⟨rfl, rfl, rfl, rfl, rfl⟩

/-- C10 as stated fails: in the frame rendered from the zeroed object in
FIXED_FUNCTION_MODE, the calls issued before `glBeginQuery` set the clear color
(0, 0, 0, 0), and no call among them sets a clear color of alpha 1. -/
theorem renderScene_clear_color_not_opaque :
    GLCall.clearColor 0 0 0 0 ∈
      (renderScene demoPlatform zeroed dt64 FIXED_FUNCTION_MODE false).2.takeWhile
        (fun c => !c.isBeginQuery) ∧
    ¬ ∃ r g b : ℚ, GLCall.clearColor r g b 1 ∈
      (renderScene demoPlatform zeroed dt64 FIXED_FUNCTION_MODE false).2.takeWhile
        (fun c => !c.isBeginQuery) := by
  constructor
  · simp [renderScene, List.takeWhile, GLCall.isBeginQuery]
  · simp [renderScene, List.takeWhile, GLCall.isBeginQuery]

/-- C10, amended.  In every frame and for every mode, the calls that `renderScene`
issues before `glBeginQuery` are, in order: the upload of the transform to the uniform
buffer, `glBindFramebuffer(GL_FRAMEBUFFER, 0)`,
`glViewport(0, 0, SCREEN_WIDTH, SCREEN_HEIGHT)`, `glClearDepth(1)`,
`glClearColor(0, 0, 0, 0)` (black with alpha 0) and the clear of the color and depth
buffers; `glBeginQuery(GL_TIME_ELAPSED, timeElapsedQuery)` follows them. -/
theorem renderScene_before_query {F M : Type} (env : Platform F M) (s : BuddhaDemo F M)
    (dtsec : F) (mode : VertexPullingMode) (q : Bool) :
    (renderScene env s dtsec mode q).2.takeWhile (fun c => !c.isBeginQuery) =
      [ GLCall.bindBuffer GL_UNIFORM_BUFFER s.transformUB,
        GLCall.bufferData GL_UNIFORM_BUFFER (renderScene env s dtsec mode q).1.transform
          GL_STATIC_DRAW,
        GLCall.bindBuffer GL_UNIFORM_BUFFER 0,
        GLCall.bindFramebuffer GL_FRAMEBUFFER 0,
        GLCall.viewport 0 0 env.SCREEN_WIDTH env.SCREEN_HEIGHT,
        GLCall.clearDepth 1,
        GLCall.clearColor 0 0 0 0,
        GLCall.clear (GL_COLOR_BUFFER_BIT ||| GL_DEPTH_BUFFER_BIT) ] ∧
    ((renderScene env s dtsec mode q).2.dropWhile (fun c => !c.isBeginQuery)).head? =
      some (GLCall.beginQuery GL_TIME_ELAPSED s.timeElapsedQuery) := by
  constructor
  · simp [renderScene, updateTransform, List.takeWhile, GLCall.isBeginQuery]
  · simp [renderScene, updateTransform, List.dropWhile, GLCall.isBeginQuery]

/-! ## Facts about binary32 arithmetic -/

namespace Binary32

/-- Rounding to the nearest integer keeps a number that is not negative so. -/
theorem roundHalfEven_nonneg {t : ℚ} (ht : 0 ≤ t) : 0 ≤ roundHalfEven t := by
  have hf : 0 ≤ ⌊t⌋ := Int.floor_nonneg.mpr ht
  unfold roundHalfEven
  split_ifs <;> omega

/-- Rounding to the nearest integer adds at most one half. -/
theorem roundHalfEven_le (t : ℚ) : (roundHalfEven t : ℚ) ≤ t + 1 / 2 := by
  have h1 : (⌊t⌋ : ℚ) ≤ t := Int.floor_le t
  unfold roundHalfEven
  split_ifs with h1' h2' h3'
  · linarith
  · push_cast; linarith
  · linarith
  · push_cast; linarith

/-- A number below an integer rounds to at most that integer. -/
theorem roundHalfEven_le_of_lt {t : ℚ} {n : ℤ} (h : t < n) : roundHalfEven t ≤ n := by
  have hf : ⌊t⌋ < n := Int.floor_lt.mpr h
  unfold roundHalfEven
  split_ifs <;> omega

/-- Below `2 ^ 128` the spacing of the binary32 numbers is at most `2 ^ 104`. -/
theorem ulpExp_le {q : ℚ} (h0 : 0 ≤ q) (h : q < 2 ^ 128) : ulpExp q ≤ 104 := by
  have hlog : Int.log 2 |q| < 128 := by
    rcases h0.eq_or_lt with h0 | h0
    · rw [← h0]; simp
    · rw [abs_of_pos h0]
      have := (Int.lt_zpow_iff_log_lt (b := 2) (by norm_num) (x := 128) h0).mp
        (by exact_mod_cast h)
      exact this
  unfold ulpExp
  omega


/-- An exact result in `[0, 2 ^ 128 - 2 ^ 103)` rounds to a finite number that is not
negative and exceeds it by at most `2 ^ 103`. -/
theorem round32_of_nonneg {q : ℚ} (h0 : 0 ≤ q) (h : q < 2 ^ 128 - 2 ^ 103) :
    ∃ r, round32 q = finite r ∧ 0 ≤ r ∧ r ≤ q + 2 ^ 103 := by
  have hu : ulpExp q ≤ 104 := ulpExp_le h0 (by linarith [show (0:ℚ) < 2 ^ 103 by positivity])
  have hpos : (0 : ℚ) < 2 ^ ulpExp q := by positivity
  have hle : (2 : ℚ) ^ ulpExp q ≤ 2 ^ (104 : ℤ) := zpow_le_zpow_right₀ (by norm_num) hu
  have hm0 : (0 : ℚ) ≤ (roundHalfEven (q / 2 ^ ulpExp q) : ℚ) := by
    exact_mod_cast roundHalfEven_nonneg (div_nonneg h0 hpos.le)
  have hm1 := roundHalfEven_le (q / 2 ^ ulpExp q)
  have hr0 : 0 ≤ (roundHalfEven (q / 2 ^ ulpExp q) : ℚ) * 2 ^ ulpExp q :=
    mul_nonneg hm0 hpos.le
  have hr1 : (roundHalfEven (q / 2 ^ ulpExp q) : ℚ) * 2 ^ ulpExp q ≤ q + 2 ^ 103 := by
    calc (roundHalfEven (q / 2 ^ ulpExp q) : ℚ) * 2 ^ ulpExp q
        ≤ (q / 2 ^ ulpExp q + 1 / 2) * 2 ^ ulpExp q :=
          mul_le_mul_of_nonneg_right hm1 hpos.le
      _ = q + 2 ^ ulpExp q / 2 := by field_simp; ring
      _ ≤ q + 2 ^ (104 : ℤ) / 2 := by linarith
      _ = q + 2 ^ 103 := by norm_num
  refine ⟨_, ?_, hr0, hr1⟩
  unfold round32
  rw [if_neg (by linarith), if_neg (by linarith [show (0:ℚ) < 2 ^ 128 by positivity])]

/-- A rounded result of at least 4 is a multiple of `2 ^ (-21)`, the spacing of the
binary32 numbers from 4 to 8. -/
theorem round32_grid {q x : ℚ} (h0 : 0 ≤ q) (hr : round32 q = finite x) (hx : 4 ≤ x) :
    ∃ k : ℕ, x = k / 2 ^ 21 := by
  have hpos : (0 : ℚ) < 2 ^ ulpExp q := by positivity
  have hm0 : 0 ≤ roundHalfEven (q / 2 ^ ulpExp q) :=
    roundHalfEven_nonneg (div_nonneg h0 hpos.le)
  have hx' : x = (roundHalfEven (q / 2 ^ ulpExp q) : ℚ) * 2 ^ ulpExp q := by
    unfold round32 at hr
    split_ifs at hr
    exact (finite.inj hr).symm
  by_cases hu : -21 ≤ ulpExp q
  · generalize roundHalfEven (q / 2 ^ ulpExp q) = m at hm0 hx'
    refine ⟨m.toNat * 2 ^ (ulpExp q + 21).toNat, ?_⟩
    have h1 : ((m.toNat : ℤ) : ℚ) = (m : ℚ) := by
      rw [Int.toNat_of_nonneg hm0]
    have h3 : ((ulpExp q + 21).toNat : ℤ) = ulpExp q + 21 := Int.toNat_of_nonneg (by omega)
    have h4 : (2 : ℚ) ^ (ulpExp q + 21).toNat = 2 ^ (ulpExp q + 21) := by
      rw [← zpow_natCast, h3]
    have h2 : (2 : ℚ) ^ ulpExp q = 2 ^ (ulpExp q + 21).toNat / 2 ^ 21 := by
      rw [h4, zpow_add₀ (by norm_num)]
      norm_num
    have h5 : ((m.toNat : ℕ) : ℚ) = (m : ℚ) := by
      rw [← h1]; norm_cast
    rw [hx', h2]
    push_cast
    rw [h5]
    ring
  · refine ⟨2 ^ 23, ?_⟩
    have hq : 0 < q := by
      rcases h0.eq_or_lt with h | h
      · exfalso
        rw [← h] at hx'
        simp [roundHalfEven] at hx'
        linarith
      · exact h
    have hlt : q < 2 ^ (Int.log 2 |q| + 1) := by
      have := Int.lt_zpow_succ_log_self (b := 2) (by norm_num) |q|
      rw [abs_of_pos hq] at this ⊢
      exact_mod_cast this
    have hue : Int.log 2 |q| - 23 ≤ ulpExp q := le_max_left _ _
    have ht : q / 2 ^ ulpExp q < ((2 ^ 24 : ℤ) : ℚ) := by
      rw [div_lt_iff₀ hpos]
      calc q < 2 ^ (Int.log 2 |q| + 1) := hlt
        _ ≤ 2 ^ (ulpExp q + 24) := zpow_le_zpow_right₀ (by norm_num) (by omega)
        _ = ((2 ^ 24 : ℤ) : ℚ) * 2 ^ ulpExp q := by
          rw [zpow_add₀ (by norm_num)]; push_cast; ring
    have hm : (roundHalfEven (q / 2 ^ ulpExp q) : ℚ) ≤ 2 ^ 24 := by
      exact_mod_cast roundHalfEven_le_of_lt ht
    have hu' : (2 : ℚ) ^ ulpExp q ≤ 2 ^ (-22 : ℤ) := zpow_le_zpow_right₀ (by norm_num) (by omega)
    have hx4 : x ≤ 4 := by
      calc x = (roundHalfEven (q / 2 ^ ulpExp q) : ℚ) * 2 ^ ulpExp q := hx'
        _ ≤ 2 ^ 24 * 2 ^ (-22 : ℤ) := mul_le_mul hm hu' hpos.le (by positivity)
        _ = 4 := by norm_num
    have : x = 4 := le_antisymm hx4 hx
    rw [this]; norm_num

/-- The spacing at the value of `2.f * (float)M_PI` is `2 ^ (-21)`. -/
theorem ulpExp_two_pi : ulpExp (13176795 / 2097152) = -21 := by
  have hlog : Int.log 2 |(13176795 / 2097152 : ℚ)| = 2 := by
    rw [abs_of_pos (by norm_num)]
    apply le_antisymm
    · have := (Int.lt_zpow_iff_log_lt (b := 2) (by norm_num) (x := 3)
        (r := (13176795 / 2097152 : ℚ)) (by norm_num)).mp (by norm_num)
      omega
    · exact (Int.zpow_le_iff_le_log (b := 2) (by norm_num) (x := 2)
        (r := (13176795 / 2097152 : ℚ)) (by norm_num)).mp (by norm_num)
  unfold ulpExp
  rw [hlog]; rfl

/-- The value `13176795 / 2 ^ 21` of `2.f * (float)M_PI` is a binary32 number. -/
theorem round32_two_pi : round32 (13176795 / 2097152) = finite (13176795 / 2097152) := by
  have ht : (13176795 / 2097152 : ℚ) / 2 ^ (-21 : ℤ) = ((13176795 : ℤ) : ℚ) := by norm_num
  have hm : roundHalfEven (((13176795 : ℤ) : ℚ)) = 13176795 := by
    unfold roundHalfEven
    rw [Int.floor_intCast]
    norm_num
  unfold round32
  rw [ulpExp_two_pi, ht, hm]
  norm_num


/-- For a finite `x >= 0` on the binary32 grid, `fmodf(x, 2.f * (float)M_PI)` is a number
from 0 to `13176794 / 2 ^ 21`, the binary32 number just below the divisor. -/
theorem fmodf_two_pi_range {x : ℚ} (hx0 : 0 ≤ x)
    (hgrid : 4 ≤ x → ∃ k : ℕ, x = k / 2 ^ 21) :
    ∃ r, fmodf (finite x) (finite (13176795 / 2097152)) = finite r ∧
      0 ≤ r ∧ r ≤ 13176794 / 2097152 := by
  have hy : (0 : ℚ) < 13176795 / 2097152 := by norm_num
  have hdiv : 0 ≤ x / (13176795 / 2097152) := div_nonneg hx0 hy.le
  have hn0 : (0 : ℚ) ≤ (⌊x / (13176795 / 2097152)⌋ : ℚ) := by
    exact_mod_cast Int.floor_nonneg.mpr hdiv
  have hfl : (⌊x / (13176795 / 2097152)⌋ : ℚ) ≤ x / (13176795 / 2097152) := Int.floor_le _
  have hfu : x / (13176795 / 2097152) < ⌊x / (13176795 / 2097152)⌋ + 1 :=
    Int.lt_floor_add_one _
  rw [le_div_iff₀ hy] at hfl
  rw [div_lt_iff₀ hy] at hfu
  refine ⟨x - 13176795 / 2097152 * ⌊x / (13176795 / 2097152)⌋, ?_, by linarith, ?_⟩
  · simp [fmodf, truncate, hdiv]
  · by_cases h4 : 4 ≤ x
    · obtain ⟨k, hk⟩ := hgrid h4
      generalize ⌊x / (13176795 / 2097152)⌋ = n at hn0 hfl hfu ⊢
      have hlt : ((k : ℤ) - 13176795 * n : ℤ) < 13176795 := by
        have : (((k : ℤ) - 13176795 * n : ℤ) : ℚ) < ((13176795 : ℤ) : ℚ) := by
          push_cast
          rw [hk] at hfu
          have h21 : (0 : ℚ) < 2 ^ 21 := by positivity
          have := (div_lt_iff₀ h21).mp hfu
          linarith
        exact_mod_cast this
      have hle : ((k : ℤ) - 13176795 * n : ℤ) ≤ 13176794 := by omega
      have hle' : ((k : ℚ) - 13176795 * n) ≤ 13176794 := by exact_mod_cast hle
      rw [hk]
      rw [show (k : ℚ) / 2 ^ 21 - 13176795 / 2097152 * (n : ℚ) =
        ((k : ℚ) - 13176795 * n) / 2097152 by ring]
      exact div_le_div_of_nonneg_right hle' (by norm_num)
    · push_neg at h4
      have : (0 : ℚ) ≤ 13176795 / 2097152 * ⌊x / (13176795 / 2097152)⌋ :=
        mul_nonneg hy.le hn0
      linarith [show (4 : ℚ) ≤ 13176794 / 2097152 by norm_num]

/-- One phase update of line 295 from a phase in `[0, 13176794 / 2 ^ 21]` with a finite
`dtsec >= 0` ends in that range again. -/
theorem phase_step {p d : ℚ} (hp0 : 0 ≤ p) (hp1 : p ≤ 13176794 / 2097152)
    (hd0 : 0 ≤ d) (hd1 : d < 2 ^ 128) :
    ∃ r, fmodf (fadd (finite p) (fmul (finite d) (finite lit_0_3f)))
        (fmul (finite 2) (finite lit_M_PI_f)) = finite r ∧
      0 ≤ r ∧ r ≤ 13176794 / 2097152 := by
  unfold lit_0_3f lit_M_PI_f
  have hy : fmul (finite 2) (finite (13176795 / 4194304)) = finite (13176795 / 2097152) := by
    have : (2 : ℚ) * (13176795 / 4194304) = 13176795 / 2097152 := by norm_num
    simp only [fmul, this, round32_two_pi]
  have hq1 : d * (10066330 / 33554432) ≤ 2 ^ 128 * (10066330 / 33554432) :=
    mul_le_mul_of_nonneg_right hd1.le (by norm_num)
  obtain ⟨r1, hr1, hr10, hr11⟩ :=
    round32_of_nonneg (q := d * (10066330 / 33554432)) (mul_nonneg hd0 (by norm_num))
      (lt_of_le_of_lt hq1 (by norm_num))
  obtain ⟨x, hx, hx0, -⟩ :=
    round32_of_nonneg (q := p + r1) (add_nonneg hp0 hr10)
      (by
        have : (13176794 / 2097152 : ℚ) + (2 ^ 128 * (10066330 / 33554432) + 2 ^ 103) <
            2 ^ 128 - 2 ^ 103 := by norm_num
        linarith)
  have hgrid : 4 ≤ x → ∃ k : ℕ, x = k / 2 ^ 21 :=
    fun h4 => round32_grid (add_nonneg hp0 hr10) hx h4
  rw [hy]
  simp only [fmul, fadd, hr1, hx]
  exact fmodf_two_pi_range hx0 hgrid

/-- The binary32 number just below `2.f * (float)M_PI` is below `2 * pi`. -/
theorem phaseMax_lt_two_pi : ((13176794 / 2097152 : ℚ) : ℝ) < 2 * Real.pi := by
  have := Real.pi_gt_d20
  push_cast
  norm_num at this ⊢
  linarith

end Binary32

/-! ## The rotation phase -/

/-- One `renderScene` call on binary32 arithmetic, from a phase in
`[0, 13176794 / 2 ^ 21]` and with a finite `dtsec >= 0`, leaves a phase in that range. -/
theorem renderScene_phase_step {M : Type} (lib : Library M) (s : BuddhaDemo Binary32 M)
    (dtsec : Binary32) (mode : VertexPullingMode) (q : Bool)
    (hs : ∃ p : ℚ, s.cameraRotationFactor = Binary32.finite p ∧ 0 ≤ p ∧ p ≤ 13176794 / 2097152)
    (hdt : ∃ d : ℚ, dtsec = Binary32.finite d ∧ 0 ≤ d ∧ d < 2 ^ 128) :
    ∃ r : ℚ, (renderScene (binary32Platform lib) s dtsec mode q).1.cameraRotationFactor =
        Binary32.finite r ∧ 0 ≤ r ∧ r ≤ 13176794 / 2097152 := by
  obtain ⟨p, hp, hp0, hp1⟩ := hs
  obtain ⟨d, hd, hd0, hd1⟩ := hdt
  obtain ⟨r, hr, hr0, hr1⟩ := Binary32.phase_step hp0 hp1 hd0 hd1
  refine ⟨r, ?_, hr0, hr1⟩
  simp only [renderScene, updateTransform, binary32Platform, hp, hd]
  exact hr

/-- A sequence of `renderScene` calls on binary32 arithmetic, from a phase in
`[0, 13176794 / 2 ^ 21]` and with every `dtsec` finite and not negative, leaves a phase
in that range. -/
theorem renderFrames_phase_step {M : Type} (lib : Library M)
    (frames : List (Binary32 × VertexPullingMode × Bool)) :
    ∀ s : BuddhaDemo Binary32 M,
      (∃ p : ℚ, s.cameraRotationFactor = Binary32.finite p ∧ 0 ≤ p ∧ p ≤ 13176794 / 2097152) →
      (∀ f ∈ frames, ∃ d : ℚ, f.1 = Binary32.finite d ∧ 0 ≤ d ∧ d < 2 ^ 128) →
      ∃ r : ℚ, (renderFrames (binary32Platform lib) s frames).cameraRotationFactor =
        Binary32.finite r ∧ 0 ≤ r ∧ r ≤ 13176794 / 2097152 := by
  induction frames with
  | nil => intro s hs _; exact hs
  | cons f fs ih =>
    intro s hs hdt
    have hf := hdt f (List.mem_cons_self f fs)
    have hfs : ∀ g ∈ fs, ∃ d : ℚ, g.1 = Binary32.finite d ∧ 0 ≤ d ∧ d < 2 ^ 128 :=
      fun g hg => hdt g (List.mem_cons_of_mem f hg)
    exact ih _ (renderScene_phase_step lib s f.1 f.2.1 f.2.2 hs hf) hfs

/-- C4 as stated fails: `dtsec = +infinity` is `>= 0`, and one `renderScene` call with
it on the constructed object (phase 0) leaves the phase NaN, which is not a number in
`[0, 2 * pi)`. -/
theorem renderScene_phase_nan_at_infinite_dt :
    Binary32.nonneg Binary32.posInf ∧
    constructed.cameraRotationFactor = Binary32.finite 0 ∧
    (renderFrames (binary32Platform sampleLibrary) constructed
        [(Binary32.posInf, FIXED_FUNCTION_MODE, false)]).cameraRotationFactor = Binary32.nan ∧
    ¬ Binary32.inPhaseRange
      (renderFrames (binary32Platform sampleLibrary) constructed
        [(Binary32.posInf, FIXED_FUNCTION_MODE, false)]).cameraRotationFactor := by
  have h : (renderFrames (binary32Platform sampleLibrary) constructed
      [(Binary32.posInf, FIXED_FUNCTION_MODE, false)]).cameraRotationFactor = Binary32.nan := by
    simp [renderFrames, renderScene, updateTransform, binary32Platform, constructed,
      Binary32.fmul, Binary32.fadd, Binary32.fmodf, lit_0_3f]
  refine ⟨trivial, rfl, h, ?_⟩
  rw [h]
  exact fun hn => hn

/-- C4, amended.  On binary32 arithmetic, whatever the library, starting from the
constructor's phase 0, for every finite sequence of `renderScene` calls whose `dtsec` are
all finite (of magnitude below `2 ^ 128`, as every finite `float` is) and `>= 0`, the
phase `cameraRotationFactor` is a number `p` with `0 <= p < 2 * pi` after every call:
after the first `k` calls, for every `k`. -/
theorem renderScene_phase_in_range {M : Type} (lib : Library M) (s : BuddhaDemo Binary32 M)
    (frames : List (Binary32 × VertexPullingMode × Bool)) (k : ℕ)
    (hs : s.cameraRotationFactor = Binary32.finite 0)
    (hdt : ∀ f ∈ frames, ∃ d : ℚ, f.1 = Binary32.finite d ∧ 0 ≤ d ∧ d < 2 ^ 128) :
    Binary32.inPhaseRange
      (renderFrames (binary32Platform lib) s (frames.take k)).cameraRotationFactor := by
  obtain ⟨r, hr, hr0, hr1⟩ :=
    renderFrames_phase_step lib (frames.take k) s ⟨0, hs, le_refl 0, by norm_num⟩
      (fun f hf => hdt f (List.mem_of_mem_take hf))
  rw [hr]
  have h0 : (0 : ℝ) ≤ (r : ℝ) := by exact_mod_cast hr0
  have h1 : (r : ℝ) ≤ ((13176794 / 2097152 : ℚ) : ℝ) := by exact_mod_cast hr1
  exact ⟨h0, lt_of_le_of_lt h1 Binary32.phaseMax_lt_two_pi⟩

/-- C4, amended, at three frames of 1/64 s, 30 s and 0 s on the constructed object. -/
theorem renderScene_phase_in_range_witness :
    constructed.cameraRotationFactor = Binary32.finite 0 ∧
    Binary32.inPhaseRange
      (renderFrames (binary32Platform sampleLibrary) constructed
        ([(Binary32.finite (1 / 64), PULLER_MODE, false),
          (Binary32.finite 30, FIXED_FUNCTION_MODE, true),
          (Binary32.finite 0, FETCHER_MODE, false)].take 3)).cameraRotationFactor :=
  ⟨rfl,
   renderScene_phase_in_range sampleLibrary constructed
    [(Binary32.finite (1 / 64), PULLER_MODE, false),
     (Binary32.finite 30, FIXED_FUNCTION_MODE, true),
     (Binary32.finite 0, FETCHER_MODE, false)] 3 rfl
    (by
      intro f hf
      simp only [List.mem_cons, List.mem_singleton, List.not_mem_nil, or_false] at hf
      rcases hf with rfl | rfl | rfl
      · exact ⟨1 / 64, rfl, by norm_num, by norm_num⟩
      · exact ⟨30, rfl, by norm_num, by norm_num⟩
      · exact ⟨0, rfl, by norm_num, by norm_num⟩)⟩

end buddha
